import Mathlib

/-!
Verification of the TPU host-side driver (Basys3 FPGA, UART transport).

This file gives a shallow embedding of the protocol/codec layer of
`src/drivers/tpu_driver.c` and `src/drivers/tpu_driver.cpp` and proves the
specified properties about it.

Modelling conventions:
* 32-bit float values are represented by their IEEE-754 binary32 bit
  patterns as `Nat` (< 2^32); the C code itself only manipulates the bit
  pattern (it `memcpy`s the float into a `uint32_t`), so the codec is a
  function on patterns.
* C unsigned arithmetic is `Nat` with explicit `% 2^w` at the points where
  the C program narrows a wider value to `uint8_t`; shifts and masks are
  `>>> / <<< / &&& / |||` exactly as in the source.
* Serial I/O is modelled by explicit traces: each driver operation returns
  its result together with the list of frames it transmits; the device's
  responses are parameters (`Option Nat`: `none` models a short read of
  zero bytes, `some b` a single response byte `b`).
-/

set_option maxRecDepth 20000

/-! ## Constants from the source (`tpu_driver.c` lines 34-51) -/

/-- `CMD_WRITE_WEIGHT 'W'` (0x57). -/
def CMD_WRITE_WEIGHT : Nat := 0x57

/-- `CMD_WRITE_ACTIVATION 'A'` (0x41). -/
def CMD_WRITE_ACTIVATION : Nat := 0x41

/-- `CMD_START 'S'` (0x53). -/
def CMD_START : Nat := 0x53

/-- `CMD_READ_RESULT 'R'` (0x52). -/
def CMD_READ_RESULT : Nat := 0x52

/-- `CMD_STATUS '?'` (0x3F). -/
def CMD_STATUS : Nat := 0x3F

/-- Acknowledgement marker `'K'` (0x4B). -/
def ACK_BYTE : Nat := 0x4B

/-- `WEIGHT_BASE 0`. -/
def WEIGHT_BASE : Nat := 0

/-- `ACTIVATION_BASE 128`. -/
def ACTIVATION_BASE : Nat := 128

/-- `RESULT_BASE 192`. -/
def RESULT_BASE : Nat := 192

/-- `STATUS_BUSY 0x01`. -/
def STATUS_BUSY : Nat := 0x01

/-- `STATUS_DONE 0x02`. -/
def STATUS_DONE : Nat := 0x02

/-- `MATRIX_SIZE 8`. -/
def MATRIX_SIZE : Nat := 8

/-! ## Half-precision codec (`tpu_driver.c` lines 76-129) -/

/-- `float_to_fp16` (`tpu_driver.c` lines 76-101).  Input: the binary32 bit
pattern of the argument (`memcpy(&f32, &value, 4)`); output: the 16-bit
half-precision pattern.  `exp16` is `int32_t` in the source, so it is `Int`
here. -/
def float_to_fp16 (f32 : Nat) : Nat :=
  let sign := (f32 >>> 31) &&& 0x1
  let exp32 := (f32 >>> 23) &&& 0xFF
  let mant32 := f32 &&& 0x7FFFFF
  if exp32 = 0xFF then
    -- Inf or NaN
    (sign <<< 15) ||| 0x7C00 ||| (if mant32 ≠ 0 then 0x200 else 0)
  else if exp32 = 0 then
    -- Zero or denormal
    sign <<< 15
  else
    let exp16 : Int := (exp32 : Int) - 127 + 15
    if exp16 ≤ 0 then sign <<< 15            -- Underflow
    else if 31 ≤ exp16 then (sign <<< 15) ||| 0x7C00  -- Overflow
    else
      let mant16 := mant32 >>> 13
      (sign <<< 15) ||| (exp16.toNat <<< 10) ||| mant16

/-- `fp16_to_float` (`tpu_driver.c` lines 106-129).  Returns the binary32
bit pattern of the result.  The C source computes `exp16 - 15 + 127` in
`uint32_t`; in the branch where it is used `1 ≤ exp16 ≤ 30`, so the `Int`
computation (followed by `toNat`) yields the same value. -/
def fp16_to_float (fp16 : Nat) : Nat :=
  let sign := (fp16 >>> 15) &&& 0x1
  let exp16 := (fp16 >>> 10) &&& 0x1F
  let mant16 := fp16 &&& 0x3FF
  if exp16 = 0x1F then
    -- Inf or NaN
    (sign <<< 31) ||| 0x7F800000 ||| (mant16 <<< 13)
  else if exp16 = 0 then
    -- Zero or denormal
    sign <<< 31
  else
    let exp32 := ((exp16 : Int) - 15 + 127).toNat
    let mant32 := mant16 <<< 13
    (sign <<< 31) ||| (exp32 <<< 23) ||| mant32

/-! ## The C++ codec (`tpu_driver.cpp` class `FP16`, lines 71-121) -/

namespace FP16

/-- `FP16::fromFloat` (`tpu_driver.cpp` lines 73-98). -/
def fromFloat (f32 : Nat) : Nat :=
  let sign := (f32 >>> 31) &&& 0x1
  let exp32 := (f32 >>> 23) &&& 0xFF
  let mant32 := f32 &&& 0x7FFFFF
  if exp32 = 0xFF then
    (sign <<< 15) ||| 0x7C00 ||| (if mant32 ≠ 0 then 0x200 else 0)
  else if exp32 = 0 then
    sign <<< 15
  else
    let exp16 : Int := (exp32 : Int) - 127 + 15
    if exp16 ≤ 0 then sign <<< 15
    else if 31 ≤ exp16 then (sign <<< 15) ||| 0x7C00
    else
      let mant16 := mant32 >>> 13
      (sign <<< 15) ||| (exp16.toNat <<< 10) ||| mant16

/-- `FP16::toFloat` (`tpu_driver.cpp` lines 100-120). -/
def toFloat (fp16 : Nat) : Nat :=
  let sign := (fp16 >>> 15) &&& 0x1
  let exp16 := (fp16 >>> 10) &&& 0x1F
  let mant16 := fp16 &&& 0x3FF
  if exp16 = 0x1F then
    (sign <<< 31) ||| 0x7F800000 ||| (mant16 <<< 13)
  else if exp16 = 0 then
    sign <<< 31
  else
    let exp32 := ((exp16 : Int) - 15 + 127).toNat
    let mant32 := mant16 <<< 13
    (sign <<< 31) ||| (exp32 <<< 23) ||| mant32

end FP16

/-! ## Field extractors and value semantics for binary32 patterns

These mirror the extraction expressions of the source and give the claims
about "sign", "exponent" and "magnitude" of a float a precise meaning. -/

/-- Sign bit of a binary32 pattern (`(f32 >> 31) & 0x1`). -/
def signField (x : Nat) : Nat := (x >>> 31) &&& 0x1

/-- Biased exponent field of a binary32 pattern (`(f32 >> 23) & 0xFF`). -/
def exp32Field (x : Nat) : Nat := (x >>> 23) &&& 0xFF

/-- Mantissa field of a binary32 pattern (`f32 & 0x7FFFFF`). -/
def mant32Field (x : Nat) : Nat := x &&& 0x7FFFFF

/-- Magnitude of a finite binary32 bit pattern, scaled by `2^150` so that it
is an exact natural number: a normal pattern with exponent field `e` and
mantissa field `m` has magnitude `(2^23 + m) * 2^(e-150)`, a denormal
pattern has magnitude `m * 2^(-149)`.  Comparisons of float magnitudes are
comparisons of this scaled magnitude; the float value `65504` (the largest
half-precision normal) has scaled magnitude `65504 * 2^150`. -/
def f32MagScaled (x : Nat) : Nat :=
  let e := (x >>> 23) &&& 0xFF
  let m := x &&& 0x7FFFFF
  if e = 0 then m * 2 else (2 ^ 23 + m) * 2 ^ e

/-! ## Command protocol (`tpu_driver.c` lines 284-361, 408-443)

Each operation returns its result together with the trace of frames it
transmits on the serial channel.  The device side is a parameter: a write
or start command takes the acknowledgement byte the device answers with
(`none` models a read of fewer than one byte), a read command takes the
data byte.  `serial_write` of a fully-formed frame is modelled as
succeeding; transmission happens before the acknowledgement is examined,
exactly as in the source. -/

/-- The four error kinds of the design (§7 of the spec).  The C driver
collapses them all to the sentinel `-1`, but which failure branch is taken
is visible in the source, and each branch is labelled here with its kind. -/
inductive DriverError
  | ioError
  | protocolError
  | validationError
  | timeoutError
deriving DecidableEq, Repr

/-- A transmitted 3-byte write frame `{cmd, addr, data}`. -/
structure TxFrame where
  cmd : Nat
  addr : Nat
  data : Nat
deriving DecidableEq, Repr

/-- A transmitted 2-byte read-request frame `{cmd, addr}`. -/
structure ReadReq where
  cmd : Nat
  addr : Nat
deriving DecidableEq, Repr

/-- Command selection of `tpu_write_byte` (`tpu_driver.c` line 289):
`(addr < 128) ? CMD_WRITE_WEIGHT : CMD_WRITE_ACTIVATION`. -/
def writeCmdFor (addr : Nat) : Nat :=
  if addr < 128 then CMD_WRITE_WEIGHT else CMD_WRITE_ACTIVATION

/-- `tpu_write_byte` (`tpu_driver.c` lines 284-303): transmit
`{cmd, addr, data}`, read one acknowledgement byte, succeed iff it is
`'K'`.  A short read (`ack = none`) or any byte other than `'K'` is the
failure branch (`ProtocolError` in the design's nomenclature). -/
def tpu_write_byte (addr data : Nat) (ack : Option Nat) :
    Except DriverError Unit × List TxFrame :=
  let frame : TxFrame := ⟨writeCmdFor addr, addr, data⟩
  match ack with
  | none => (.error .protocolError, [frame])
  | some a => (if a = ACK_BYTE then .ok () else .error .protocolError, [frame])

/-- `tpu_read_byte` (`tpu_driver.c` lines 308-323): transmit
`{CMD_READ_RESULT, addr}`, read one data byte. -/
def tpu_read_byte (addr : Nat) (resp : Option Nat) :
    Except DriverError Nat × List ReadReq :=
  let frame : ReadReq := ⟨CMD_READ_RESULT, addr⟩
  match resp with
  | none => (.error .protocolError, [frame])
  | some d => (.ok d, [frame])

/-- `tpu_start` (`tpu_driver.c` lines 408-422): transmit the single byte
`'S'`, read one acknowledgement byte, succeed iff it is `'K'`. -/
def tpu_start (ack : Option Nat) : Except DriverError Unit × List Nat :=
  match ack with
  | none => (.error .protocolError, [CMD_START])
  | some a => (if a = ACK_BYTE then .ok () else .error .protocolError, [CMD_START])

/-- `tpu_write_fp16` (`tpu_driver.c` lines 328-342): reject odd addresses
before any I/O, otherwise encode the value and write low byte at `addr`
and high byte at `addr + 1` (the second call narrows `addr + 1` to
`uint8_t`), aborting after the first failed sub-write. -/
def tpu_write_fp16 (addr value : Nat) (ack0 ack1 : Option Nat) :
    Except DriverError Unit × List TxFrame :=
  if addr % 2 ≠ 0 then (.error .validationError, [])
  else
    let fp16 := float_to_fp16 value
    let low := fp16 &&& 0xFF
    let high := (fp16 >>> 8) &&& 0xFF
    let r0 := tpu_write_byte addr low ack0
    match r0.1 with
    | .error e => (.error e, r0.2)
    | .ok _ =>
      let r1 := tpu_write_byte ((addr + 1) % 256) high ack1
      (r1.1, r0.2 ++ r1.2)

/-- `tpu_read_fp16` (`tpu_driver.c` lines 347-361): reject odd addresses
before any I/O, otherwise read the low byte at `addr` and the high byte at
`addr + 1` and decode `(high << 8) | low`. -/
def tpu_read_fp16 (addr : Nat) (resp0 resp1 : Option Nat) :
    Except DriverError Nat × List ReadReq :=
  if addr % 2 ≠ 0 then (.error .validationError, [])
  else
    let r0 := tpu_read_byte addr resp0
    match r0.1 with
    | .error e => (.error e, r0.2)
    | .ok low =>
      let r1 := tpu_read_byte ((addr + 1) % 256) resp1
      match r1.1 with
      | .error e => (.error e, r0.2 ++ r1.2)
      | .ok high => (.ok (fp16_to_float ((high <<< 8) ||| low)), r0.2 ++ r1.2)

/-! ## Matrix transfer (`tpu_driver.c` lines 366-403, 475-491)

The transfer loops run `addr` through a `uint8_t` accumulator, starting at
the region base and adding 2 per element (64 elements, row-major
`i*8 + j`); `(addr + 2) % 256` is the `uint8_t` increment.  The traces
below are those of a device that acknowledges every write with `'K'` and
answers every read with a data byte (the frames sent do not depend on the
read data, and an earlier device failure only truncates the trace). -/

/-- Addresses at which a transfer loop invokes `tpu_write_fp16` /
`tpu_read_fp16`: the `uint8_t` sequence `base, base+2, ...` of the source
loops. -/
def elemAddrs (addr : Nat) : Nat → List Nat
  | 0 => []
  | n + 1 => addr :: elemAddrs ((addr + 2) % 256) n

/-- Frames transmitted when writing the elements `vs` (binary32 patterns,
row-major) starting at `addr`, all writes acknowledged. -/
def writeElemsFrames (addr : Nat) : List Nat → List TxFrame
  | [] => []
  | v :: rest =>
    (tpu_write_fp16 addr v (some ACK_BYTE) (some ACK_BYTE)).2 ++
      writeElemsFrames ((addr + 2) % 256) rest

/-- Read-request frames transmitted when reading `n` elements starting at
`addr`. -/
def readElemsReqs (addr : Nat) : Nat → List ReadReq
  | 0 => []
  | n + 1 =>
    (tpu_read_fp16 addr (some 0) (some 0)).2 ++ readElemsReqs ((addr + 2) % 256) n

/-- Row-major flattening of an 8×8 matrix of binary32 patterns: element
`k` of the flat list is `m[k / 8][k % 8]`. -/
def rowMajor (m : Nat → Nat → Nat) : List Nat :=
  (List.range (MATRIX_SIZE * MATRIX_SIZE)).map fun k => m (k / MATRIX_SIZE) (k % MATRIX_SIZE)

/-- Frames transmitted by `tpu_write_activations` (`tpu_driver.c` lines
387-403): 64 `tpu_write_fp16` calls starting at `ACTIVATION_BASE`. -/
def tpu_write_activations_frames (m : Nat → Nat → Nat) : List TxFrame :=
  writeElemsFrames ACTIVATION_BASE (rowMajor m)

/-- The 64 addresses at which `tpu_read_results` (`tpu_driver.c` lines
475-491) invokes `tpu_read_fp16`, starting at `RESULT_BASE`. -/
def tpu_read_results_addrs : List Nat :=
  elemAddrs RESULT_BASE (MATRIX_SIZE * MATRIX_SIZE)

/-- The read-request frames transmitted by `tpu_read_results`. -/
def tpu_read_results_reqs : List ReadReq :=
  readElemsReqs RESULT_BASE (MATRIX_SIZE * MATRIX_SIZE)

/-! ## Synchronization: poll-until-done (`tpu_driver.c` lines 448-470,
`tpu_driver.cpp` lines 400-418)

Both loops have the same structure: query status; if `done`, succeed; else
if elapsed time exceeds the timeout, fail; else sleep one poll interval
(10 ms) and repeat.  Time is modelled by the loop's own clock: `elapsed`
starts at 0 and each sleep advances it by exactly `pollIntervalMs`.  The
status answered at the `k`-th poll is `statusAt k` (`none` models a failed
status read, which the C loop surfaces as an immediate error). -/

/-- The `usleep(10000)` / `sleep_for(milliseconds(10))` poll interval. -/
def pollIntervalMs : Nat := 10

/-- Outcome of the poll loop, carrying the loop's elapsed clock (ms) at the
moment it returned. -/
inductive WaitResult
  | completed (elapsedMs : Nat)
  | statusFailed (elapsedMs : Nat)
  | timedOut (elapsedMs : Nat)
deriving DecidableEq, Repr

/-- One execution of the poll loop from an intermediate state: `elapsed` is
the clock so far, `k` counts polls already made.  Mirrors
`tpu_wait_until_done` / `waitUntilDone`: the `done` test precedes the
timeout test, and `busy` (bit 0) is never examined. -/
def tpu_wait_until_done_from (statusAt : Nat → Option Nat) (timeout_ms : Nat) :
    Nat → Nat → WaitResult
  | elapsed, k =>
    match statusAt k with
    | none => .statusFailed elapsed
    | some s =>
      if s &&& STATUS_DONE ≠ 0 then .completed elapsed
      else if h : timeout_ms < elapsed then .timedOut elapsed
      else tpu_wait_until_done_from statusAt timeout_ms (elapsed + pollIntervalMs) (k + 1)
termination_by elapsed _ => timeout_ms + 1 - elapsed
decreasing_by simp only [pollIntervalMs]; omega

/-- `tpu_wait_until_done(tpu, timeout_ms)` / `waitUntilDone(timeout_ms)`:
the poll loop started with a fresh clock. -/
def tpu_wait_until_done (statusAt : Nat → Option Nat) (timeout_ms : Nat) : WaitResult :=
  tpu_wait_until_done_from statusAt timeout_ms 0 0

/-! ## Bridge lemmas: the source's shifts and masks as arithmetic -/

/-- `x & 0xFF` is `x mod 2^8`. -/
theorem and_255_eq (x : Nat) : x &&& 255 = x % 256 := by
  have h := Nat.and_pow_two_sub_one_eq_mod x 8
  norm_num at h
  exact h

/-- `x & 0x1F` is `x mod 2^5`. -/
theorem and_31_eq (x : Nat) : x &&& 31 = x % 32 := by
  have h := Nat.and_pow_two_sub_one_eq_mod x 5
  norm_num at h
  exact h

/-- `x & 0x3FF` is `x mod 2^10`. -/
theorem and_1023_eq (x : Nat) : x &&& 1023 = x % 1024 := by
  have h := Nat.and_pow_two_sub_one_eq_mod x 10
  norm_num at h
  exact h

/-- `x & 0x7FFFFF` is `x mod 2^23`. -/
theorem and_8388607_eq (x : Nat) : x &&& 8388607 = x % 8388608 := by
  have h := Nat.and_pow_two_sub_one_eq_mod x 23
  norm_num at h
  exact h

/-- Packing a value above a field of `n` clear bits is addition. -/
theorem shiftLeft_or_eq_add (a b n : Nat) (h : b < 2 ^ n) :
    (a <<< n) ||| b = a * 2 ^ n + b := by
  rw [Nat.shiftLeft_eq]
  calc a * 2 ^ n ||| b = 2 ^ n * a ||| b := by rw [Nat.mul_comm]
    _ = 2 ^ n * a + b := (Nat.mul_add_lt_is_or h a).symm
    _ = a * 2 ^ n + b := by rw [Nat.mul_comm]

/-- The half-precision pack `(s << 15) | (e << 10) | m` as arithmetic. -/
theorem pack16_eq (s e m : Nat) (he : e < 32) (hm : m < 1024) :
    (s <<< 15) ||| (e <<< 10) ||| m = s * 2 ^ 15 + e * 2 ^ 10 + m := by
  have h1 : (s <<< 15) ||| (e <<< 10) = s * 2 ^ 15 + e * 2 ^ 10 := by
    rw [shiftLeft_or_eq_add s (e <<< 10) 15 (by rw [Nat.shiftLeft_eq]; omega), Nat.shiftLeft_eq]
  rw [h1, show s * 2 ^ 15 + e * 2 ^ 10 = (s * 2 ^ 5 + e) <<< 10 by rw [Nat.shiftLeft_eq]; ring,
    shiftLeft_or_eq_add _ m 10 hm, Nat.shiftLeft_eq]

/-- The binary32 pack `(s << 31) | (e << 23) | m` as arithmetic. -/
theorem pack32_eq (s e m : Nat) (he : e < 256) (hm : m < 2 ^ 23) :
    (s <<< 31) ||| (e <<< 23) ||| m = s * 2 ^ 31 + e * 2 ^ 23 + m := by
  have h1 : (s <<< 31) ||| (e <<< 23) = s * 2 ^ 31 + e * 2 ^ 23 := by
    rw [shiftLeft_or_eq_add s (e <<< 23) 31 (by rw [Nat.shiftLeft_eq]; omega), Nat.shiftLeft_eq]
  rw [h1, show s * 2 ^ 31 + e * 2 ^ 23 = (s * 2 ^ 8 + e) <<< 23 by rw [Nat.shiftLeft_eq]; ring,
    shiftLeft_or_eq_add _ m 23 hm, Nat.shiftLeft_eq]

/-- The sign field extractor as arithmetic. -/
theorem signField_eq (x : Nat) : signField x = x / 2 ^ 31 % 2 := by
  rw [signField, Nat.shiftRight_eq_div_pow, Nat.and_one_is_mod]

/-- The exponent field extractor as arithmetic. -/
theorem exp32Field_eq (x : Nat) : exp32Field x = x / 2 ^ 23 % 256 := by
  rw [exp32Field, Nat.shiftRight_eq_div_pow, and_255_eq]

/-! ## C4 - half-precision round trip on in-range normals -/

/-- C4: For every binary32 pattern that is a normal number within the
half-precision normal exponent range (biased exponent field in
`[113, 142]`, i.e. unbiased exponent in `[-14, 15]`),
`fp16_to_float (float_to_fp16 x)` is `x` with the low 13 mantissa bits
truncated: the round trip equals `x - x % 2^13`, so the sign and exponent
fields are preserved, the error is less than `2^13` pattern units — one
unit in the last bit of the 10-bit half mantissa field — and every pattern
whose low 13 bits are zero (every value exactly representable in half
precision) round-trips exactly. -/
theorem fp16_roundtrip_truncates (x : Nat) (hx : x < 2 ^ 32)
    (h1 : 113 ≤ exp32Field x) (h2 : exp32Field x ≤ 142) :
    fp16_to_float (float_to_fp16 x) = x - x % 2 ^ 13 ∧
    x - fp16_to_float (float_to_fp16 x) < 2 ^ 13 ∧
    signField (fp16_to_float (float_to_fp16 x)) = signField x ∧
    exp32Field (fp16_to_float (float_to_fp16 x)) = exp32Field x ∧
    (x % 2 ^ 13 = 0 → fp16_to_float (float_to_fp16 x) = x) := by
  rw [exp32Field_eq] at h1 h2
  have hr : float_to_fp16 x =
      x / 2 ^ 31 % 2 * 2 ^ 15 + (x / 2 ^ 23 % 256 - 112) * 2 ^ 10 + x % 8388608 / 2 ^ 13 := by
    simp only [float_to_fp16, Nat.shiftRight_eq_div_pow, Nat.and_one_is_mod, and_255_eq,
      and_8388607_eq]
    split_ifs with hc1 hc2 hc3 hc4 hc5 <;> try (exfalso; omega)
    rw [show ((x / 2 ^ 23 % 256 : Nat) - 127 + 15 : Int).toNat = x / 2 ^ 23 % 256 - 112 by
      omega]
    rw [pack16_eq _ _ _ (by omega) (by omega)]
  have hfin : fp16_to_float (float_to_fp16 x) =
      x / 2 ^ 31 % 2 * 2 ^ 31 + (x / 2 ^ 23 % 256) * 2 ^ 23 + x % 8388608 / 2 ^ 13 * 2 ^ 13 := by
    rw [hr]
    simp only [fp16_to_float, Nat.shiftRight_eq_div_pow, Nat.and_one_is_mod, and_31_eq,
      and_1023_eq]
    rw [show (x / 2 ^ 31 % 2 * 2 ^ 15 + (x / 2 ^ 23 % 256 - 112) * 2 ^ 10 +
        x % 8388608 / 2 ^ 13) / 2 ^ 15 % 2 = x / 2 ^ 31 % 2 by omega]
    rw [show (x / 2 ^ 31 % 2 * 2 ^ 15 + (x / 2 ^ 23 % 256 - 112) * 2 ^ 10 +
        x % 8388608 / 2 ^ 13) / 2 ^ 10 % 32 = x / 2 ^ 23 % 256 - 112 by omega]
    rw [show (x / 2 ^ 31 % 2 * 2 ^ 15 + (x / 2 ^ 23 % 256 - 112) * 2 ^ 10 +
        x % 8388608 / 2 ^ 13) % 1024 = x % 8388608 / 2 ^ 13 by omega]
    split_ifs with hc1 hc2 <;> try (exfalso; omega)
    rw [show ((x / 2 ^ 23 % 256 - 112 : Nat) - 15 + 127 : Int).toNat = x / 2 ^ 23 % 256 by
      omega]
    rw [pack32_eq _ _ _ (by omega) (by rw [Nat.shiftLeft_eq]; omega), Nat.shiftLeft_eq]
  refine ⟨?_, ?_, ?_, ?_, ?_⟩
  · rw [hfin]; omega
  · rw [hfin]; omega
  · rw [signField_eq, signField_eq, hfin]; omega
  · rw [exp32Field_eq, exp32Field_eq, hfin]; omega
  · intro h0; rw [hfin]; omega

/-- C4 witness: the pattern of `1.5f` (`0x3FC00000`, exponent field 127,
low 13 mantissa bits zero) round-trips exactly. -/
theorem fp16_roundtrip_truncates_witness :
    fp16_to_float (float_to_fp16 0x3FC00000) = 0x3FC00000 :=
  (fp16_roundtrip_truncates 0x3FC00000 (by decide) (by decide) (by decide)).2.2.2.2 (by decide)

/-! ## C5 - saturation behaviour of `float_to_fp16` -/

/-- C5 counterexample: the claim "if a finite input's magnitude exceeds the
half-precision range the result is signed infinity" is false.  The pattern
`0x477FF000` encodes `65520.0f`: it is finite, and its magnitude exceeds
`65504` (the largest half-precision normal, which is the value of the half
pattern `0x7BFF`, whose binary32 image is `0x477FE000`); yet
`float_to_fp16` maps it to the largest half normal `0x7BFF`, not to
`0x7C00`/`0xFC00`. -/
theorem toHalf_above_halfMax_not_infinity :
    exp32Field 0x477FF000 ≠ 255 ∧
    fp16_to_float 0x7BFF = 0x477FE000 ∧
    f32MagScaled 0x477FE000 = 65504 * 2 ^ 150 ∧
    65504 * 2 ^ 150 < f32MagScaled 0x477FF000 ∧
    float_to_fp16 0x477FF000 = 0x7BFF ∧
    0x7BFF ≠ 0x7C00 ∧ 0x7BFF ≠ 0xFC00 := by decide

/-- C5 (amended): for every finite binary32 pattern, `float_to_fp16`
saturates to signed infinity exactly when the rebiased exponent reaches 31,
i.e. when the magnitude is at least `2^16` (exponent field `≥ 143`) — not
already when it exceeds the largest half normal `65504`; and it flushes to
signed zero whenever the magnitude is below the smallest half normal
`2^-14` (exponent field `≤ 112`, including binary32 zeros and denormals). -/
theorem toHalf_overflow_underflow (x : Nat) (_hx : x < 2 ^ 32)
    (hfin : exp32Field x ≠ 255) :
    (143 ≤ exp32Field x → float_to_fp16 x = (signField x <<< 15) ||| 0x7C00) ∧
    (exp32Field x ≤ 112 → float_to_fp16 x = signField x <<< 15) := by
  rw [exp32Field_eq] at hfin ⊢
  rw [signField_eq]
  constructor
  · intro h
    simp only [float_to_fp16, Nat.shiftRight_eq_div_pow, Nat.and_one_is_mod, and_255_eq,
      and_8388607_eq]
    split_ifs with hc1 hc2 hc3 hc4 hc5 <;> try (exfalso; omega)
    all_goals rfl
  · intro h
    simp only [float_to_fp16, Nat.shiftRight_eq_div_pow, Nat.and_one_is_mod, and_255_eq,
      and_8388607_eq]
    split_ifs with hc1 hc2 hc3 hc4 hc5 <;> try (exfalso; omega)
    all_goals rfl

/-- C5 witness: `65536.0f` (pattern `0x47800000`, exponent field 143) maps
to positive infinity `0x7C00`. -/
theorem toHalf_overflow_underflow_witness :
    float_to_fp16 0x47800000 = (signField 0x47800000 <<< 15) ||| 0x7C00 :=
  (toHalf_overflow_underflow 0x47800000 (by decide) (by decide)).1 (by decide)

/-! ## C9 - the C and C++ codecs are the same function -/

/-- C9: the C implementation (`float_to_fp16` / `fp16_to_float`) and the
C++ implementation (`FP16::fromFloat` / `FP16::toFloat`) of the
half-precision codec compute identical functions: on every input bit
pattern they produce the same result (the two sources are line-for-line
the same algorithm, and the embedded definitions are definitionally
equal). -/
theorem codec_c_cpp_equal :
    (∀ f32 : Nat, float_to_fp16 f32 = FP16.fromFloat f32) ∧
    (∀ fp16 : Nat, fp16_to_float fp16 = FP16.toFloat fp16) :=
  ⟨fun _ => rfl, fun _ => rfl⟩

/-! ## C6 - odd addresses are rejected with no I/O -/

/-- C6: for every odd address, `tpu_write_fp16` and `tpu_read_fp16` fail
with the validation error and transmit nothing: the returned trace is
empty, whatever the device would have answered. -/
theorem fp16_odd_addr_rejected (addr value : Nat) (a0 a1 r0 r1 : Option Nat)
    (hodd : addr % 2 = 1) :
    tpu_write_fp16 addr value a0 a1 = (.error .validationError, []) ∧
    tpu_read_fp16 addr r0 r1 = (.error .validationError, []) := by
  constructor <;> simp [tpu_write_fp16, tpu_read_fp16, hodd]

/-- C6 witness at address 1. -/
theorem fp16_odd_addr_rejected_witness :
    tpu_write_fp16 1 0x3C00 (some 0x4B) (some 0x4B) = (.error .validationError, []) ∧
    tpu_read_fp16 1 (some 0) (some 0) = (.error .validationError, []) :=
  fp16_odd_addr_rejected 1 0x3C00 (some 0x4B) (some 0x4B) (some 0) (some 0) rfl

/-! ## C7 - only `'K'` acknowledges a write or start -/

/-- C7: for every write command and for start, if the single response byte
is anything other than `'K'` (0x4B), or fewer than one byte is read
(`ack = none`), the operation reports the protocol-error failure; a
non-`'K'` acknowledgement is never treated as success. -/
theorem nonK_ack_rejected (addr data : Nat) (ack : Option Nat)
    (h : ack ≠ some ACK_BYTE) :
    (tpu_write_byte addr data ack).1 = .error .protocolError ∧
    (tpu_start ack).1 = .error .protocolError := by
  cases ack with
  | none => simp [tpu_write_byte, tpu_start]
  | some a =>
    have ha : ¬ a = ACK_BYTE := fun hh => h (by rw [hh])
    simp [tpu_write_byte, tpu_start, ha]

/-- C7 witness: the device answering `'N'` (0x4E) is rejected. -/
theorem nonK_ack_rejected_witness :
    (tpu_write_byte 0 0 (some 0x4E)).1 = .error .protocolError ∧
    (tpu_start (some 0x4E)).1 = .error .protocolError :=
  nonK_ack_rejected 0 0 (some 0x4E) (by decide)

/-! ## C10 - both sub-writes of a `writeHalf` select the same command -/

/-- C10: for every even 8-bit address, the two `tpu_write_byte` sub-calls
of `tpu_write_fp16` (at `addr` and `addr + 1`) transmit frames with the
same command byte, `writeCmdFor addr` — both `'W'` or both `'A'` — because
the region boundary 128 is even, so the `addr < 128` test cannot change
between the low and the high byte of one 16-bit value. -/
theorem writeHalf_same_cmd (addr value : Nat) (h256 : addr < 256)
    (heven : addr % 2 = 0) :
    ((tpu_write_fp16 addr value (some ACK_BYTE) (some ACK_BYTE)).2).map TxFrame.cmd =
      [writeCmdFor addr, writeCmdFor addr] := by
  have hcmd : writeCmdFor ((addr + 1) % 256) = writeCmdFor addr := by
    unfold writeCmdFor
    split_ifs <;> first | rfl | (exfalso; omega)
  simp [tpu_write_fp16, tpu_write_byte, heven, hcmd]

/-- C10 witness at address 130 (activation region): both frames carry
`'A'`. -/
theorem writeHalf_same_cmd_witness :
    ((tpu_write_fp16 130 0x3C00 (some ACK_BYTE) (some ACK_BYTE)).2).map TxFrame.cmd =
      [writeCmdFor 130, writeCmdFor 130] :=
  writeHalf_same_cmd 130 0x3C00 (by decide) rfl

/-! ## C3 - the poll loop cannot hang: bounded timeout failure -/

/-- C3: if every status poll answers a byte with the `done` bit clear (and
no I/O error occurs — the device always answers), the poll loop fails with
the timeout error, and the elapsed loop clock at the failure is at most the
caller-supplied timeout plus one poll interval.  The loop is a total
function of its inputs (its Lean definition carries a termination proof),
so it never loops indefinitely.  Time model: the loop's own clock starts at
0 and each sleep advances it by exactly one poll interval (10 ms). -/
theorem waitUntilDone_times_out (statusRaw : Nat → Nat) (timeout_ms : Nat)
    (hnd : ∀ k, statusRaw k &&& STATUS_DONE = 0) :
    ∃ e, tpu_wait_until_done (fun j => some (statusRaw j)) timeout_ms =
      .timedOut e ∧ e ≤ timeout_ms + pollIntervalMs := by
  suffices hgen : ∀ n elapsed k, timeout_ms + 1 - elapsed ≤ n →
      elapsed ≤ timeout_ms + pollIntervalMs →
      ∃ e, tpu_wait_until_done_from (fun j => some (statusRaw j)) timeout_ms elapsed k =
        .timedOut e ∧ e ≤ timeout_ms + pollIntervalMs by
    exact hgen (timeout_ms + 1) 0 0 (by omega) (by omega)
  intro n
  induction n with
  | zero =>
    intro elapsed k h1 h2
    unfold tpu_wait_until_done_from
    dsimp only
    rw [if_neg (by simp [hnd k])]
    rw [dif_pos (by omega)]
    exact ⟨elapsed, rfl, h2⟩
  | succ n ih =>
    intro elapsed k h1 h2
    unfold tpu_wait_until_done_from
    dsimp only
    rw [if_neg (by simp [hnd k])]
    by_cases hto : timeout_ms < elapsed
    · rw [dif_pos hto]
      exact ⟨elapsed, rfl, h2⟩
    · rw [dif_neg hto]
      exact ih (elapsed + pollIntervalMs) (k + 1)
        (by simp only [pollIntervalMs]; omega) (by simp only [pollIntervalMs]; omega)

/-- C3 witness: a device that always answers status `0x01` (busy, not
done) makes a 25 ms wait fail with the timeout error within 35 ms. -/
theorem waitUntilDone_times_out_witness :
    ∃ e, tpu_wait_until_done (fun _ => some 1) 25 = .timedOut e ∧
      e ≤ 25 + pollIntervalMs :=
  waitUntilDone_times_out (fun _ => 1) 25
    (fun _ => by exact (by decide : (1 : Nat) &&& STATUS_DONE = 0))

/-! ## C8 - a set `done` bit completes the loop at once, busy or not -/

/-- C8: from any state of the poll loop, if the current poll answers a
status byte with the `done` bit (bit 1) set, the loop returns success
immediately — whatever the `busy` bit (bit 0) is, and even if the timeout
has already been exceeded: the `done` test precedes the timeout test and
`busy` is never examined. -/
theorem waitUntilDone_done_immediate (statusRaw : Nat → Nat)
    (timeout_ms elapsed k : Nat) (h : statusRaw k &&& STATUS_DONE ≠ 0) :
    tpu_wait_until_done_from (fun j => some (statusRaw j)) timeout_ms elapsed k =
      .completed elapsed := by
  unfold tpu_wait_until_done_from
  dsimp only
  rw [if_pos h]

/-- C8 witness: status byte `0x03` (busy and done both set) completes the
loop at once, at a poll made after the timeout was already exceeded
(elapsed 50 > timeout 0). -/
theorem waitUntilDone_done_immediate_witness :
    tpu_wait_until_done_from (fun _ => some 3) 0 50 5 = .completed 50 :=
  waitUntilDone_done_immediate (fun _ => 3) 0 50 5 (by decide)

/-! ## C1 - the result read wraps around the 8-bit address space -/

/-- C1 counterexample: the claim that the 64 `tpu_read_fp16` calls of
`tpu_read_results` target exactly the addresses 192, 194, ..., 254 is
false: there are 64 calls but only 32 even addresses in [192, 254].  The
33rd call (index 32) targets device address 0 — the `uint8_t` address
accumulator wraps past 255 into the weight region — so not every readHalf
address lies in the result region. -/
theorem readResults_addr_escapes_result_region :
    tpu_read_results_addrs.length = 64 ∧
    tpu_read_results_addrs.get ⟨32, by decide⟩ = 0 ∧
    ¬ ∀ a ∈ tpu_read_results_addrs, 192 ≤ a ∧ a ≤ 254 := by decide

/-- C1 (amended): `tpu_read_results` issues exactly 64 `tpu_read_fp16`
calls; the first 32 target the addresses 192, 194, ..., 254 (the 64-byte
result region, read in row-major element order), and the remaining 32 wrap
around the 8-bit address space to the addresses 0, 2, ..., 62.  The
transfer touches 128 distinct byte addresses in total, of which exactly 64
(the bytes 192-255) lie in the result region [192, 256); every request
frame carries the `'R'` read command. -/
theorem readResults_addrs_wraparound :
    tpu_read_results_addrs =
      (List.range 32).map (fun k => 192 + 2 * k) ++ (List.range 32).map (fun k => 2 * k) ∧
    tpu_read_results_addrs.length = 64 ∧
    ((tpu_read_results_reqs.map ReadReq.addr).dedup.length = 128) ∧
    (((tpu_read_results_reqs.map ReadReq.addr).filter (fun a => decide (192 ≤ a))).length
      = 64) ∧
    (tpu_read_results_reqs.all (fun r => r.cmd == CMD_READ_RESULT) = true) := by decide

/-! ## C2 - the activation write spills into the result region -/

/-- C2 counterexample: the claim that no frame sent during an
activation-matrix write carries an address of 192 or above is false.
Writing the all-zero activation matrix, the 65th transmitted frame (the
low byte of element 32 = row 4, column 0) is a WriteActivation frame with
address 192 — the first byte past the 64-byte activation region [128, 192),
landing at the base of the result region. -/
theorem writeActivations_frame_hits_result_region :
    ((tpu_write_activations_frames fun _ _ => 0).get ⟨64, by decide⟩).addr = 192 ∧
    ((tpu_write_activations_frames fun _ _ => 0).get ⟨64, by decide⟩).cmd =
      CMD_WRITE_ACTIVATION ∧
    ¬ ∀ f ∈ tpu_write_activations_frames fun _ _ => 0, f.addr < 192 := by decide

/-- C2 (amended): for every activation matrix, `tpu_write_activations`
transmits 128 WriteActivation (`'A'`) frames, one per byte, at the
consecutive addresses 128, 129, ..., 255: every frame's command is `'A'`
and its address lies in [128, 256), but only the frames of elements 0-31
lie in the activation region [128, 192) — the 64 frames of elements 32-63
(addresses 192-255) spill into the result region. -/
theorem writeActivations_frames_spill (m : Nat → Nat → Nat) :
    (tpu_write_activations_frames m).map (fun f => (f.cmd, f.addr)) =
      (List.range 128).map (fun i => (CMD_WRITE_ACTIVATION, 128 + i)) ∧
    (tpu_write_activations_frames m).length = 128 ∧
    (((tpu_write_activations_frames m).map (fun f => (f.cmd, f.addr))).all
      (fun p => p.1 == CMD_WRITE_ACTIVATION && decide (128 ≤ p.2) && decide (p.2 < 256))
      = true) ∧
    ((((tpu_write_activations_frames m).map (fun f => (f.cmd, f.addr))).filter
      (fun p => decide (192 ≤ p.2))).length = 64) := by
  have hmap : (tpu_write_activations_frames m).map (fun f => (f.cmd, f.addr)) =
      (List.range 128).map (fun i => (CMD_WRITE_ACTIVATION, 128 + i)) := rfl
  refine ⟨hmap, ?_, ?_, ?_⟩
  · have hlen := congrArg List.length hmap
    simpa using hlen
  · rw [hmap]; decide
  · rw [hmap]; decide
